import Mathlib

/-!
Verification of the BDWPT (bidirectional dynamic wireless power transfer)
simulation platform: a shallow embedding of the vehicle-state registry, the
dispatch decision engine, the state integrator, the synthetic traffic model,
the dynamic-efficiency model, the stochastic run variation and the worker
loop of the Monte-Carlo framework, translated from
`enhanced_simulation/bdwpt_controller.py`, `enhanced_simulation/monte_carlo.py`,
`enhanced_simulation/monte_carlo_v2.py` and
`enhanced_simulation/advanced_bdwpt.py`.

Python floats are modelled by `ℚ` (every constant appearing in the sources is
a short decimal, and every arithmetic result whose integer part matters is
exactly representable, so rational arithmetic agrees with the float runs on
the inputs used in the theorems below); Python ints by `ℤ`/`ℕ`; the numpy
global random generator by an abstract state `Nat` threaded explicitly
through a record `Rng` of draw operations, so that every theorem quantifies
over the generator's behaviour.
-/

/-- Abstract model of the numpy global random generator: `seed` replaces the
hidden global state by a function of its integer argument alone
(`np.random.seed`), and each draw operation maps a state to a value and the
successor state.  The distributions are irrelevant to the claims, so the
operations are left abstract and the theorems quantify over them. -/
structure Rng where
  seed : ℤ → Nat
  random : Nat → ℚ × Nat
  uniform : ℚ → ℚ → Nat → ℚ × Nat
  randint : ℤ → ℤ → Nat → ℤ × Nat
  normal : ℚ → ℚ → Nat → ℚ × Nat
  poisson : ℚ → Nat → ℕ × Nat
  choice : List ℕ → Nat → ℕ × Nat

/-- `EVState` from `bdwpt_controller.py` (dataclass, lines 13-28), with the
same fields and defaults used by `initialize_ev`. -/
structure EVState where
  vehicle_id : String
  bdwpt_enabled : Bool
  soc : ℚ
  battery_capacity_kwh : ℚ
  max_power_kw : ℚ
  charging_efficiency : ℚ
  is_connected : Bool
  charging_power_kw : ℚ
  arrival_time : ℤ
  departure_time : ℤ
  target_soc : ℚ
  min_soc : ℚ
  participation_willingness : ℚ
deriving DecidableEq

/-- The mutable state of `BDWPTController`: the vehicle registry
(`ev_states`, a Python dict modelled as an insertion-ordered association
list) and the run-level counters. -/
structure Controller where
  ev_states : List (String × EVState)
  total_energy_traded_kwh : ℚ
  peak_shaving_achieved_kw : ℚ
  v2g_events : ℕ
  g2v_events : ℕ
deriving DecidableEq

/-- `BDWPTController()`: empty registry, zeroed statistics. -/
def initController : Controller :=
  { ev_states := [], total_energy_traded_kwh := 0, peak_shaving_achieved_kw := 0,
    v2g_events := 0, g2v_events := 0 }

/-- Python dict membership/read: first (unique) binding of the key. -/
def dictLookup (k : String) : List (String × EVState) → Option EVState
  | [] => none
  | (k', v) :: rest => if k' = k then some v else dictLookup k rest

/-- Python dict write `d[k] = v`: replace in place if present, else append. -/
def dictInsert (k : String) (v : EVState) : List (String × EVState) → List (String × EVState)
  | [] => [(k, v)]
  | (k', v') :: rest => if k' = k then (k, v) :: rest else (k', v') :: dictInsert k v rest

/-- Store a vehicle state under its id (the effect of mutating the object
held in `self.ev_states[vehicle_id]`). -/
def setEv (c : Controller) (k : String) (v : EVState) : Controller :=
  { c with ev_states := dictInsert k v c.ev_states }

/-- `self.voltage_threshold_low = 0.95`. -/
def voltage_threshold_low : ℚ := 95/100

/-- `self.voltage_threshold_high = 1.05` (unused by the decision cascade). -/
def voltage_threshold_high : ℚ := 105/100

/-- `self.peak_demand_threshold_mw = 0.1`. -/
def peak_demand_threshold_mw : ℚ := 1/10

/-- `self.electricity_prices`: the 24-entry hour→price dict, read through
`.get(current_hour, 0.20)`. -/
def electricity_prices (h : ℤ) : ℚ :=
  match h with
  | 0 => 8/100 | 1 => 8/100 | 2 => 8/100 | 3 => 8/100 | 4 => 8/100 | 5 => 8/100
  | 6 => 12/100 | 7 => 25/100 | 8 => 35/100 | 9 => 30/100 | 10 => 28/100 | 11 => 30/100
  | 12 => 32/100 | 13 => 30/100 | 14 => 28/100 | 15 => 30/100 | 16 => 32/100 | 17 => 35/100
  | 18 => 40/100 | 19 => 38/100 | 20 => 30/100 | 21 => 25/100 | 22 => 15/100 | 23 => 10/100
  | _ => 20/100

/-- `BDWPTController.initialize_ev` (lines 55-79): draws randomized
parameters from the (global) generator in the source's evaluation order and
unconditionally stores a fresh `EVState` under `vehicle_id`.  Fields not
passed to the constructor keep the dataclass defaults
(`is_connected = True`, `charging_power_kw = 0`, `min_soc = 0.2`). -/
def initialize_ev (rng : Rng) (c : Controller) (s : Nat) (vehicle_id : String)
    (bdwpt_enabled : Bool) (current_hour : ℤ) : Controller × Nat :=
  let r1 := rng.uniform (2/10) (9/10) s
  let r2 := rng.uniform 50 80 r1.2
  let r3 := rng.uniform 30 50 r2.2
  let arrival := current_hour
  let r4 := rng.randint 1 8 r3.2
  let departure := min 24 (arrival + r4.1)
  let r5 := rng.uniform (90/100) (98/100) r4.2
  let r6 := rng.uniform (75/100) (95/100) r5.2
  let r7 := if bdwpt_enabled then rng.uniform (6/10) 1 r6.2 else (0, r6.2)
  let newEv : EVState :=
    { vehicle_id := vehicle_id
      bdwpt_enabled := bdwpt_enabled
      soc := r1.1
      battery_capacity_kwh := r2.1
      max_power_kw := r3.1
      charging_efficiency := r5.1
      is_connected := true
      charging_power_kw := 0
      arrival_time := arrival
      departure_time := departure
      target_soc := r6.1
      min_soc := 2/10
      participation_willingness := r7.1 }
  ({ c with ev_states := dictInsert vehicle_id newEv c.ev_states }, r7.2)

/-- Cases 5-6 of the decision cascade ("默认慢充" and "空闲状态", lines
174-182 of `calculate_power_command`). -/
def cpc_slow (c : Controller) (ev : EVState) (vid : String) (s : Nat) :
    ℚ × Controller × Nat :=
  if ev.soc < ev.target_soc then
    let power := min 15 (ev.max_power_kw * (3/10))
    (power, setEv c vid { ev with charging_power_kw := power }, s)
  else
    (0, setEv c vid { ev with charging_power_kw := 0 }, s)

/-- Case 4 of the decision cascade ("经济优化充电", lines 149-172): the
opportunistic-charge / price-arbitrage `if`/`elif`, falling through to
`cpc_slow`.  The arbitrage draw happens only when the two leading conjuncts
hold, mirroring Python's short-circuit `and`. -/
def cpc_econ (rng : Rng) (c : Controller) (ev : EVState) (vid : String)
    (current_hour : ℤ) (s : Nat) : ℚ × Controller × Nat :=
  let current_price := electricity_prices current_hour
  if current_price < 20/100 then
    if ev.soc < ev.target_soc then
      let power := min (min (ev.max_power_kw * (8/10))
        ((ev.target_soc - ev.soc) * ev.battery_capacity_kwh * 2)) 40
      let c1 := setEv c vid { ev with charging_power_kw := power }
      (power, { c1 with g2v_events := c1.g2v_events + 1 }, s)
    else cpc_slow c ev vid s
  else if current_price > 30/100 then
    if ev.soc > 7/10 ∧ ev.participation_willingness > 6/10 then
      let rs := rng.random s
      if rs.1 < 4/10 then
        let power := -(min (ev.max_power_kw * (5/10)) 20)
        let c1 := setEv c vid { ev with charging_power_kw := power }
        (power, { c1 with v2g_events := c1.v2g_events + 1 }, rs.2)
      else cpc_slow c ev vid rs.2
    else cpc_slow c ev vid s
  else cpc_slow c ev vid s

/-- `BDWPTController.calculate_power_command` (lines 81-182): the full
ordered decision cascade, returning the signed power command together with
the updated controller and generator state.  The uniform draw of case 3 (grid
support) is consumed only when `soc > 0.6`, mirroring the short-circuit. -/
def calculate_power_command (rng : Rng) (c : Controller) (s : Nat) (vid : String)
    (local_voltage : ℚ) (current_hour : ℤ) (grid_demand_mw : ℚ) : ℚ × Controller × Nat :=
  match dictLookup vid c.ev_states with
  | none => (0, c, s)
  | some ev =>
    if ev.bdwpt_enabled = false ∨ ev.is_connected = false then (0, c, s)
    else if current_hour < ev.arrival_time ∨ ev.departure_time ≤ current_hour then
      (0, setEv c vid { ev with is_connected := false }, s)
    else if ev.soc ≤ ev.min_soc then
      let power := min (ev.max_power_kw * (8/10)) 30
      let c1 := setEv c vid { ev with charging_power_kw := power }
      (power, { c1 with g2v_events := c1.g2v_events + 1 }, s)
    else if 95/100 ≤ ev.soc then
      (0, setEv c vid { ev with charging_power_kw := 0 }, s)
    else if local_voltage < voltage_threshold_low ∨ grid_demand_mw > peak_demand_threshold_mw then
      if ev.soc > 6/10 then
        let rs := rng.random s
        if rs.1 < ev.participation_willingness then
          let max_discharge := min (ev.max_power_kw * (6/10))
            ((ev.soc - ev.min_soc) * ev.battery_capacity_kwh * 2)
          let power := -(min max_discharge 25)
          let c1 := setEv c vid { ev with charging_power_kw := power }
          (power, { c1 with v2g_events := c1.v2g_events + 1,
                            peak_shaving_achieved_kw := c1.peak_shaving_achieved_kw + |power| }, rs.2)
        else cpc_econ rng c ev vid current_hour rs.2
      else cpc_econ rng c ev vid current_hour s
    else cpc_econ rng c ev vid current_hour s

/-- `BDWPTController.update_ev_soc` (lines 184-206): the state integrator. -/
def update_ev_soc (c : Controller) (vid : String) (power_kw : ℚ)
    (time_step_hours : ℚ) : Controller :=
  match dictLookup vid c.ev_states with
  | none => c
  | some ev =>
    if power_kw = 0 then c
    else if power_kw > 0 then
      let energy := power_kw * time_step_hours * ev.charging_efficiency
      let c1 := setEv c vid { ev with soc := min 1 (ev.soc + energy / ev.battery_capacity_kwh) }
      { c1 with total_energy_traded_kwh := c1.total_energy_traded_kwh + energy }
    else
      let energy := |power_kw| * time_step_hours / ev.charging_efficiency
      let c1 := setEv c vid { ev with soc := max 0 (ev.soc - energy / ev.battery_capacity_kwh) }
      { c1 with total_energy_traded_kwh := c1.total_energy_traded_kwh + energy }

/-- Result record of `BDWPTController.get_aggregated_power` (lines 208-230). -/
structure AggPower where
  total_g2v_kw : ℚ
  total_v2g_kw : ℚ
  net_power_kw : ℚ
  active_vehicles : ℕ
  v2g_utilization : ℚ
deriving DecidableEq

/-- `BDWPTController.get_aggregated_power`: sums the stored
`charging_power_kw` of the connected, enrolled, in-window vehicles. -/
def get_aggregated_power (c : Controller) (current_hour : ℤ) : AggPower :=
  let active := c.ev_states.filter (fun p =>
    p.2.is_connected && p.2.bdwpt_enabled &&
    decide (p.2.arrival_time ≤ current_hour) && decide (current_hour < p.2.departure_time))
  let g2v := (active.map (fun p => if p.2.charging_power_kw > 0 then p.2.charging_power_kw else 0)).sum
  let v2g := (active.map (fun p => if p.2.charging_power_kw < 0 then |p.2.charging_power_kw| else 0)).sum
  { total_g2v_kw := g2v, total_v2g_kw := v2g, net_power_kw := g2v - v2g,
    active_vehicles := active.length, v2g_utilization := v2g / max (g2v + v2g) 1 }

/-- Result record of `BDWPTController.get_performance_metrics` (lines 232-251). -/
structure PerfMetrics where
  total_vehicles : ℕ
  bdwpt_vehicles : ℕ
  avg_final_soc : ℚ
  total_energy_traded_kwh : ℚ
  peak_shaving_achieved_kw : ℚ
  v2g_events : ℕ
  g2v_events : ℕ
  v2g_participation_rate : ℚ

/-- `BDWPTController.get_performance_metrics`. -/
def get_performance_metrics (c : Controller) : PerfMetrics :=
  let total := c.ev_states.length
  let bdwpt := (c.ev_states.filter (fun p => p.2.bdwpt_enabled)).length
  let avg := if total > 0 then ((c.ev_states.map (fun p => p.2.soc)).sum) / total else 1/2
  { total_vehicles := total, bdwpt_vehicles := bdwpt, avg_final_soc := avg,
    total_energy_traded_kwh := c.total_energy_traded_kwh,
    peak_shaving_achieved_kw := c.peak_shaving_achieved_kw,
    v2g_events := c.v2g_events, g2v_events := c.g2v_events,
    v2g_participation_rate := (c.v2g_events : ℚ) / max (bdwpt : ℚ) 1 }

/-- `AdvancedBDWPTModeling.calculate_dynamic_efficiency`
(`advanced_bdwpt.py` lines 25-44). -/
def calculate_dynamic_efficiency (speed_kmh alignment_error_cm air_gap_cm : ℚ) : ℚ :=
  let base_efficiency := 88/100
  let speed_factor := if speed_kmh < 20 then 95/100 else if speed_kmh > 60 then 92/100 else 1
  let alignment_factor := max (7/10) (1 - alignment_error_cm / 30)
  let gap_factor := max (8/10) (1 - |air_gap_cm - 15| / 20)
  base_efficiency * speed_factor * alignment_factor * gap_factor

/-- `_simulate_traffic_pattern` (`monte_carlo.py` lines 265-285).  Note that
the second branch keeps the source's chained comparison `22 <= hour <= 6`,
written as a conjunction exactly as Python evaluates it.  `int(...)`
truncates toward zero; its argument is nonnegative here, so it is the floor
(for the base/multiplier products that occur, float and rational arithmetic
round to the same integers). -/
def simulate_traffic_pattern (rng : Rng) (s : Nat) (hour : ℤ)
    (traffic_density : String) : ℕ × Nat :=
  let multiplier : ℚ :=
    if (7 ≤ hour ∧ hour ≤ 9) ∨ (17 ≤ hour ∧ hour ≤ 19) then 2
    else if 22 ≤ hour ∧ hour ≤ 6 then 2/10
    else if 10 ≤ hour ∧ hour ≤ 16 then 12/10
    else 8/10
  let base_count : ℚ :=
    if traffic_density = "low" then 2
    else if traffic_density = "medium" then 5
    else if traffic_density = "high" then 10
    else 5
  let rp := rng.poisson 1 s
  let actual_count : ℤ := ⌊base_count * multiplier + rp.1⌋
  ((max 0 actual_count).toNat, rp.2)

/-- Modelled from the spec: the intended time-of-day multiplier of the
synthetic traffic substitute, in which the night window "hours 22–06" maps
to ×0.2 (the source's comment `# 夜间` marks the same intent).  Used only to
exhibit the divergence of the source's dead `22 <= hour <= 6` branch. -/
def spec_time_of_day_multiplier (hour : ℤ) : ℚ :=
  if (7 ≤ hour ∧ hour ≤ 9) ∨ (17 ≤ hour ∧ hour ≤ 19) then 2
  else if 22 ≤ hour ∨ hour ≤ 6 then 2/10
  else if 10 ≤ hour ∧ hour ≤ 16 then 12/10
  else 8/10

/-- Modelled from the spec: the synthetic traffic count with the intended
night multiplier, for a given Poisson noise value `k`. -/
def spec_traffic_count (k : ℕ) (hour : ℤ) (traffic_density : String) : ℕ :=
  let base_count : ℚ :=
    if traffic_density = "low" then 2
    else if traffic_density = "medium" then 5
    else if traffic_density = "high" then 10
    else 5
  (max 0 ⌊base_count * spec_time_of_day_multiplier hour + k⌋).toNat

/-- `SimulationScenario` (`monte_carlo.py` lines 18-36). -/
structure Scenario where
  bdwpt_penetration : ℚ
  traffic_density : String
  day_type : String
  weather_condition : String
  pv_penetration : ℚ
  scenario_name : String

/-- One row of the pypower bus table, restricted to the columns the core
reads or writes: column 1 (bus type, `1` = PQ load), 2 (`Pd`), 3 (`Qd`)
and 7 (solved voltage magnitude). -/
structure Bus where
  btype : ℤ
  pd : ℚ
  qd : ℚ
  vm : ℚ

/-- `np.clip(x, lo, hi)`. -/
def clipQ (x lo hi : ℚ) : ℚ := min (max x lo) hi

/-- Lines 303-309 of `_apply_stochastic_variations`: each PQ bus's load is
scaled by a clipped normal multiplier drawn from the (just seeded) global
generator; non-PQ buses draw nothing. -/
def perturbBuses (rng : Rng) : List Bus → Nat → List Bus × Nat
  | [], s => ([], s)
  | b :: rest, s =>
    if b.btype = 1 then
      let rm := rng.normal 1 (15/100) s
      let m := clipQ rm.1 (7/10) (13/10)
      let r := perturbBuses rng rest rm.2
      ({ b with pd := b.pd * m, qd := b.qd * m } :: r.1, r.2)
    else
      let r := perturbBuses rng rest s
      (b :: r.1, r.2)

/-- Lines 311-322: the weather factor applied to every PQ bus. -/
def weatherFactor (weather_condition : String) : ℚ :=
  if weather_condition = "cold" then 115/100
  else if weather_condition = "rain" then 105/100
  else 1

/-- Application of the weather factor (lines 319-322). -/
def applyWeather (net : List Bus) (f : ℚ) : List Bus :=
  net.map (fun b => if b.btype = 1 then { b with pd := b.pd * f, qd := b.qd * f } else b)

/-- Line 300: `run_id * 1000 + hash(scenario.scenario_name) % 1000`.
`pyHash` stands for Python's (per-process salted) `hash` on strings; `%` is
Python's nonnegative remainder, `Int.emod`. -/
def seedOf (pyHash : String → ℤ) (scenario_name : String) (run_id : ℕ) : ℤ :=
  (run_id : ℤ) * 1000 + pyHash scenario_name % 1000

/-- `_apply_stochastic_variations` (`monte_carlo.py` lines 287-324): seeds
the global generator from `(run_id, scenario label)` — discarding whatever
state `s` the generator held — then perturbs the PQ loads and applies the
weather factor. -/
def apply_stochastic_variations (pyHash : String → ℤ) (rng : Rng) (net : List Bus)
    (scen : Scenario) (run_id : ℕ) (_s : Nat) : List Bus × Nat :=
  let s1 := rng.seed (seedOf pyHash scen.scenario_name run_id)
  let r := perturbBuses rng net s1
  (applyWeather r.1 (weatherFactor scen.weather_condition), r.2)

/-- Lines 199-202 of `_run_single_simulation_worker`: registration guarded
by dict membership; the enrollment draw happens only when the id is new. -/
def register_if_absent (rng : Rng) (c : Controller) (s : Nat) (veh_id : String)
    (bdwpt_penetration : ℚ) (current_hour : ℤ) : Controller × Nat :=
  match dictLookup veh_id c.ev_states with
  | some _ => (c, s)
  | none =>
    let r := rng.random s
    initialize_ev rng c r.2 veh_id (decide (r.1 < bdwpt_penetration)) current_hour

/-- The external collaborators of the worker (spec §6), abstracted as
deterministic functions: the load-profile update and PV injection of the
network builder, and the power-flow solver (`runpf`), which returns the
solved bus table on success and `none` on failure. -/
structure Collaborators where
  update_loads_for_time : List Bus → ℤ → String → List Bus
  add_pv_generation : List Bus → ℤ → ℚ → List Bus
  runpf : List Bus → Option (List Bus)

/-- `sum(results['bus'][:, 2])`. -/
def sumPd (net : List Bus) : ℚ := (net.map Bus.pd).sum

/-- `min(results['bus'][:, 7])` (the solver's bus table is nonempty; an
empty table yields the 1.0 p.u. default). -/
def minVm (net : List Bus) : ℚ :=
  match net with
  | [] => 1
  | b :: rest => rest.foldl (fun a x => min a x.vm) b.vm

/-- `voltage_history[-1] if voltage_history else 1.0` (lines 205-208). -/
def lastVoltage (voltage_history : List ℚ) : ℚ := voltage_history.getLast?.getD 1

/-- `list(range(3, len(current_network['bus']) + 1))` (line 193). -/
def residential_buses (net : List Bus) : List ℕ := List.range' 3 (net.length + 1 - 3)

/-- Lines 216-220: add the command (in MW) to the bus's real power and a
fixed 0.2 ratio of it to the reactive power. -/
def applyPowerAt : List Bus → ℕ → ℚ → List Bus
  | [], _, _ => []
  | b :: rest, 0, p => { b with pd := b.pd + p, qd := b.qd + p * (2/10) } :: rest
  | b :: rest, n + 1, p => b :: applyPowerAt rest n p

/-- Accumulator of the per-EV inner loop (lines 189-225). -/
structure EvLoopState where
  controller : Controller
  dispatch : List ℚ
  net : List Bus
  s : Nat

/-- One iteration of the per-EV inner loop (lines 189-225): builds the
vehicle id, picks a connection node (`continue` when no residential buses
exist), registers the vehicle if absent, computes the dispatch command with
the previous step's minimum voltage and the step's no-EV demand, applies a
nonzero command to the network, and integrates the SoC over the 0.5 h step.
The running `total_ev_power_mw` accumulator of the source is dead
downstream and is omitted. -/
def ev_step (rng : Rng) (scen : Scenario) (step : ℕ) (hour : ℤ)
    (baseline_demand : ℚ) (local_voltage : ℚ) (st : EvLoopState) (ev_id : ℕ) :
    EvLoopState :=
  let veh_id := "ev_" ++ toString step ++ "_" ++ toString ev_id
  let res := residential_buses st.net
  match res with
  | [] => st
  | _ :: _ =>
    let rc := rng.choice res st.s
    let node_id := rc.1
    let reg := register_if_absent rng st.controller rc.2 veh_id scen.bdwpt_penetration hour
    let r := calculate_power_command rng reg.1 reg.2 veh_id local_voltage hour baseline_demand
    let power_command_kw := r.1
    let net1 := if power_command_kw ≠ 0 then
        applyPowerAt st.net (node_id - 1) (power_command_kw / 1000)
      else st.net
    let c2 := update_ev_soc r.2.1 veh_id power_command_kw (1/2)
    { controller := c2, dispatch := st.dispatch ++ [power_command_kw], net := net1, s := r.2.2 }

/-- Accumulator of the main 48-step loop (lines 161-251). -/
structure StepState where
  controller : Controller
  dispatch : List ℚ
  voltage_history : List ℚ
  power_history : List ℚ
  actual_peak : ℚ
  s : Nat

/-- One 30-minute step of the main loop (lines 161-251): rebuild the
network for the hour from the varied template, add PV if applicable, draw
the synthetic traffic count, solve the no-EV base case (fallback demand 0.1
on solver failure; the unused `baseline_min_voltage` of line 181 is
omitted), run the inner EV loop over `min(num_evs, 15)` vehicles, then
solve the loaded network and record voltage/demand (fallbacks 0.9 p.u. and
the step's base demand on failure — a solver failure never aborts the
run). -/
def sim_step (rng : Rng) (colab : Collaborators) (scen : Scenario)
    (varied : List Bus) (st : StepState) (step : ℕ) : StepState :=
  let hour : ℤ := ((step / 2 : ℕ) : ℤ)
  let cn0 := colab.update_loads_for_time varied hour scen.day_type
  let cn1 := if 0 < scen.pv_penetration then colab.add_pv_generation cn0 hour scen.pv_penetration else cn0
  let ts := simulate_traffic_pattern rng st.s hour scen.traffic_density
  let baseline_demand : ℚ :=
    match colab.runpf cn1 with
    | some solved => sumPd solved
    | none => 1/10
  let lv := lastVoltage st.voltage_history
  let inner := (List.range (min ts.1 15)).foldl
    (ev_step rng scen step hour baseline_demand lv)
    { controller := st.controller, dispatch := st.dispatch, net := cn1, s := ts.2 }
  match colab.runpf inner.net with
  | some solved =>
    let total_demand := sumPd solved
    { controller := inner.controller, dispatch := inner.dispatch,
      voltage_history := st.voltage_history ++ [minVm solved],
      power_history := st.power_history ++ [total_demand],
      actual_peak := max st.actual_peak total_demand, s := inner.s }
  | none =>
    { controller := inner.controller, dispatch := inner.dispatch,
      voltage_history := st.voltage_history ++ [9/10],
      power_history := st.power_history ++ [baseline_demand],
      actual_peak := st.actual_peak, s := inner.s }

/-- The observable outcome of one worker run: the perturbed network, the
final registry (holding every vehicle's randomized registration
parameters), the dispatch command sequence, the recorded time series and
the final generator state. -/
structure WorkerOut where
  varied : List Bus
  controller : Controller
  dispatch : List ℚ
  voltage_history : List ℚ
  power_history : List ℚ
  actual_peak : ℚ
  baseline_peak : ℚ
  s_out : Nat

/-- `_run_single_simulation_worker` (`monte_carlo.py` lines 96-259),
starting from an arbitrary ambient generator state `s0` (the state left
behind by whatever ran before in the same process, or a fresh state in an
independent worker): applies the seeded stochastic variation, performs the
hour-18 baseline-peak solve, then runs the 48-step main loop with a fresh
controller. -/
def run_single_simulation_worker (pyHash : String → ℤ) (rng : Rng)
    (colab : Collaborators) (scen : Scenario) (run_id : ℕ) (base_net : List Bus)
    (s0 : Nat) : WorkerOut :=
  let vs := apply_stochastic_variations pyHash rng base_net scen run_id s0
  let varied := vs.1
  let bn0 := colab.update_loads_for_time varied 18 scen.day_type
  let bn1 := if 0 < scen.pv_penetration then colab.add_pv_generation bn0 18 scen.pv_penetration else bn0
  let baseline_peak : ℚ :=
    match colab.runpf bn1 with
    | some solved => sumPd solved
    | none => 0
  let fin := (List.range 48).foldl (sim_step rng colab scen varied)
    { controller := initController, dispatch := [], voltage_history := [],
      power_history := [], actual_peak := 0, s := vs.2 }
  { varied := varied, controller := fin.controller, dispatch := fin.dispatch,
    voltage_history := fin.voltage_history, power_history := fin.power_history,
    actual_peak := fin.actual_peak, baseline_peak := baseline_peak, s_out := fin.s }

/-- `np.mean` over a rational list (0 on the empty list, which the sources
guard against). -/
def meanQ (xs : List ℚ) : ℚ := xs.sum / xs.length

/-- Maximum of a rational list with a default for the empty case. -/
def maxD (xs : List ℚ) (d : ℚ) : ℚ :=
  match xs with
  | [] => d
  | x :: rest => rest.foldl max x

/-- Minimum of a rational list with a default for the empty case. -/
def minD (xs : List ℚ) (d : ℚ) : ℚ :=
  match xs with
  | [] => d
  | x :: rest => rest.foldl min x

/-- The persisted run record (`SimulationResults`), restricted to the
fields the v2 result construction sets; the remaining kwargs keep their
defaults and are not read by the claims. -/
structure SimResultsRec where
  scenario_name : String
  run_id : ℕ
  min_voltage_pu : ℚ
  max_voltage_pu : ℚ
  voltage_violations : ℕ
  avg_voltage_deviation : ℚ
  peak_demand_mw : ℚ
  peak_shaving_achieved_mw : ℚ
  grid_cost_savings : ℚ
  total_energy_traded_mwh : ℚ
  avg_ev_soc_end : ℚ
  v2g_utilization : ℚ
  ev_owner_revenue : ℚ
deriving DecidableEq

/-- `EnhancedMonteCarloFramework._calculate_results`
(`monte_carlo_v2.py` lines 237-291): the live `return` records
`peak_shaving_achieved_mw = 0` and `grid_cost_savings = 0` inline (the
source comment defers both to post-processing) while computing the other
fields from the histories and the controller.  The dead `baseline_peak` /
`peak_shaving` / `energy_value` computations (whose results the live return
never reads) are omitted. -/
def calculate_results_v2 (scen : Scenario) (run_id : ℕ)
    (voltage_history power_history : List ℚ) (c : Controller) : SimResultsRec :=
  let metrics := get_performance_metrics c
  let energy_traded := metrics.total_energy_traded_kwh
  { scenario_name := scen.scenario_name
    run_id := run_id
    min_voltage_pu := minD voltage_history 1
    max_voltage_pu := maxD voltage_history 1
    voltage_violations := (voltage_history.filter (fun v => v < 95/100 ∨ v > 105/100)).length
    avg_voltage_deviation := if voltage_history.isEmpty then 0
      else meanQ (voltage_history.map (fun v => |v - 1|))
    peak_demand_mw := maxD power_history 0
    peak_shaving_achieved_mw := 0
    grid_cost_savings := 0
    total_energy_traded_mwh := energy_traded / 1000
    avg_ev_soc_end := metrics.avg_final_soc
    v2g_utilization := metrics.v2g_participation_rate
    ev_owner_revenue := energy_traded * (15/100) * (1/2) }

/-- Modelled from the spec: the baseline-relative post-processing of the
Monte-Carlo aggregator, announced by `_calculate_results` ("将在后处理中计算",
computed in post-processing) but absent from the sources.  Per §4.7 it
computes each scenario's `peakShavingAchievedMw` against the
baseline-labeled runs' mean peak demand and
`gridCostSavings = peakShavingMw · 1000 · tariffPerKw`; if no run carries
the baseline label, both fields default to zero for every scenario. -/
def aggregate_baseline_relative (baselineLabel : String) (tariffPerKw : ℚ)
    (rows : List SimResultsRec) : List SimResultsRec :=
  let base := rows.filter (fun r => r.scenario_name = baselineLabel)
  match base with
  | [] => rows.map (fun r => { r with peak_shaving_achieved_mw := 0, grid_cost_savings := 0 })
  | _ :: _ =>
    let refPeak := meanQ (base.map SimResultsRec.peak_demand_mw)
    rows.map (fun r =>
      let ps := max 0 (refPeak - r.peak_demand_mw)
      { r with peak_shaving_achieved_mw := ps,
               grid_cost_savings := ps * 1000 * tariffPerKw })

/-- A concrete generator instance used to evaluate the embedding on
concrete inputs: every draw returns a fixed value and advances the state by
one. -/
def constRng : Rng :=
  { seed := Int.toNat
    random := fun s => (1/2, s + 1)
    uniform := fun a _ s => (a, s + 1)
    randint := fun a _ s => (a, s + 1)
    normal := fun mu _ s => (mu, s + 1)
    poisson := fun _ s => (0, s + 1)
    choice := fun l s => (l.headD 0, s + 1) }

/-- A concrete registered vehicle: enrolled, connected, window [0, 10),
with a stored command of 15 kW left by an earlier decision. -/
def evObs : EVState :=
  { vehicle_id := "a", bdwpt_enabled := true, soc := 1/2,
    battery_capacity_kwh := 60, max_power_kw := 50, charging_efficiency := 95/100,
    is_connected := true, charging_power_kw := 15, arrival_time := 0,
    departure_time := 10, target_soc := 8/10, min_soc := 2/10,
    participation_willingness := 8/10 }

/-- A controller holding only `evObs` under id `"a"`. -/
def cObs : Controller := { initController with ev_states := [("a", evObs)] }

/-- A vehicle meeting every condition of the grid-support discharge case:
`soc = 0.7 > 0.6`, willingness 1, window [0, 24). -/
def evV : EVState :=
  { evObs with soc := 7/10, departure_time := 24, participation_willingness := 1 }

/-- A controller holding only `evV` under id `"v"`. -/
def cV : Controller := { initController with ev_states := [("v", evV)] }

/-- A concrete persisted run row whose scenario is not baseline-labeled and
whose relative fields are (deliberately) nonzero. -/
def rowW : SimResultsRec :=
  { scenario_name := "High_BDWPT", run_id := 0, min_voltage_pu := 1,
    max_voltage_pu := 1, voltage_violations := 0, avg_voltage_deviation := 0,
    peak_demand_mw := 5, peak_shaving_achieved_mw := 3, grid_cost_savings := 7,
    total_energy_traded_mwh := 0, avg_ev_soc_end := 1/2, v2g_utilization := 0,
    ev_owner_revenue := 0 }

/-- `rowW` with the two baseline-relative fields zeroed, as the aggregation
produces it when no baseline row exists. -/
def rowWzero : SimResultsRec :=
  { rowW with peak_shaving_achieved_mw := 0, grid_cost_savings := 0 }

theorem dictLookup_insert_self (k : String) (v : EVState) (l : List (String × EVState)) :
    dictLookup k (dictInsert k v l) = some v := by
  induction l with
  | nil => simp [dictInsert, dictLookup]
  | cons p rest ih =>
    obtain ⟨k', v'⟩ := p
    by_cases h : k' = k
    · simp [dictInsert, h, dictLookup]
    · simp [dictInsert, h, dictLookup, ih]

theorem dictLookup_setEv (c : Controller) (k : String) (v : EVState) :
    dictLookup k (setEv c k v).ev_states = some v := by
  simp [setEv, dictLookup_insert_self]

theorem cpc_slow_stores_command (c : Controller) (ev : EVState) (vid : String) (s : Nat) :
    dictLookup vid (cpc_slow c ev vid s).2.1.ev_states =
      some { ev with charging_power_kw := (cpc_slow c ev vid s).1 } := by
  unfold cpc_slow
  split_ifs <;> simp [dictLookup_setEv]

theorem cpc_econ_stores_command (rng : Rng) (c : Controller) (ev : EVState)
    (vid : String) (h : ℤ) (s : Nat) :
    dictLookup vid (cpc_econ rng c ev vid h s).2.1.ev_states =
      some { ev with charging_power_kw := (cpc_econ rng c ev vid h s).1 } := by
  simp only [cpc_econ]
  by_cases hp1 : electricity_prices h < 20/100
  · rw [if_pos hp1]
    by_cases ht : ev.soc < ev.target_soc
    · rw [if_pos ht]
      simp [setEv, dictLookup_insert_self]
    · rw [if_neg ht]
      exact cpc_slow_stores_command ..
  · rw [if_neg hp1]
    by_cases hp2 : electricity_prices h > 30/100
    · rw [if_pos hp2]
      by_cases hw : ev.soc > 7/10 ∧ ev.participation_willingness > 6/10
      · rw [if_pos hw]
        by_cases hd : (rng.random s).1 < 4/10
        · rw [if_pos hd]
          simp [setEv, dictLookup_insert_self]
        · rw [if_neg hd]
          exact cpc_slow_stores_command ..
      · rw [if_neg hw]
        exact cpc_slow_stores_command ..
    · rw [if_neg hp2]
      exact cpc_slow_stores_command ..

theorem cpc_slow_abs_le (c : Controller) (ev : EVState) (vid : String) (s : Nat)
    (hm : 0 ≤ ev.max_power_kw) : |(cpc_slow c ev vid s).1| ≤ ev.max_power_kw := by
  unfold cpc_slow
  split_ifs
  · have h0 : (0:ℚ) ≤ min 15 (ev.max_power_kw * (3/10)) :=
      le_min (by norm_num) (by nlinarith)
    simp only
    rw [abs_of_nonneg h0]
    exact le_trans (min_le_right _ _) (by nlinarith)
  · simpa using hm

theorem cpc_econ_abs_le (rng : Rng) (c : Controller) (ev : EVState) (vid : String)
    (h : ℤ) (s : Nat) (hm : 0 ≤ ev.max_power_kw) (hc : 0 ≤ ev.battery_capacity_kwh) :
    |(cpc_econ rng c ev vid h s).1| ≤ ev.max_power_kw := by
  simp only [cpc_econ]
  by_cases hp1 : electricity_prices h < 20/100
  · rw [if_pos hp1]
    by_cases ht : ev.soc < ev.target_soc
    · rw [if_pos ht]
      have hx : (0:ℚ) ≤ (ev.target_soc - ev.soc) * ev.battery_capacity_kwh * 2 := by nlinarith
      have h0 : (0:ℚ) ≤ min (min (ev.max_power_kw * (8/10))
          ((ev.target_soc - ev.soc) * ev.battery_capacity_kwh * 2)) 40 :=
        le_min (le_min (by nlinarith) hx) (by norm_num)
      dsimp only
      rw [abs_of_nonneg h0]
      exact le_trans (le_trans (min_le_left _ _) (min_le_left _ _)) (by nlinarith)
    · rw [if_neg ht]
      exact cpc_slow_abs_le c ev vid s hm
  · rw [if_neg hp1]
    by_cases hp2 : electricity_prices h > 30/100
    · rw [if_pos hp2]
      by_cases hw : ev.soc > 7/10 ∧ ev.participation_willingness > 6/10
      · rw [if_pos hw]
        by_cases hd : (rng.random s).1 < 4/10
        · rw [if_pos hd]
          have h0 : (0:ℚ) ≤ min (ev.max_power_kw * (5/10)) 20 :=
            le_min (by nlinarith) (by norm_num)
          dsimp only
          rw [abs_neg, abs_of_nonneg h0]
          exact le_trans (min_le_left _ _) (by nlinarith)
        · rw [if_neg hd]
          exact cpc_slow_abs_le c ev vid _ hm
      · rw [if_neg hw]
        exact cpc_slow_abs_le c ev vid s hm
    · rw [if_neg hp2]
      exact cpc_slow_abs_le c ev vid s hm

/-- C1: for every hash function (the seeding rule), generator behaviour and
set of deterministic collaborators, two executions of the same
(scenario label, run id) produce identical per-bus load perturbations,
identical randomized vehicle registrations, and identical dispatch command
sequences, regardless of the ambient generator state each execution starts
from — so re-running the pair sequentially (after arbitrary earlier runs)
or as an independent concurrent task gives the same outcome, because
`_apply_stochastic_variations` reseeds the generator from
`run_id * 1000 + hash(label) % 1000` before any draw. -/
theorem run_worker_independent_of_prior_rng_state
    (pyHash : String → ℤ) (rng : Rng) (colab : Collaborators) (scen : Scenario)
    (run_id : ℕ) (base_net : List Bus) (s1 s2 : Nat) :
    run_single_simulation_worker pyHash rng colab scen run_id base_net s1 =
      run_single_simulation_worker pyHash rng colab scen run_id base_net s2 := rfl

/-- C2: the v2 result construction records `peak_shaving_achieved_mw = 0`
and `grid_cost_savings = 0` inline, and the (spec-modelled) baseline-relative
post-processing leaves both fields zero for every scenario whenever no run
of the batch carries the baseline label, instead of propagating an
undefined reference value. -/
theorem baseline_relative_defaults_to_zero :
    (∀ (scen : Scenario) (run_id : ℕ) (vh ph : List ℚ) (c : Controller),
      (calculate_results_v2 scen run_id vh ph c).peak_shaving_achieved_mw = 0 ∧
      (calculate_results_v2 scen run_id vh ph c).grid_cost_savings = 0) ∧
    (∀ (baselineLabel : String) (tariffPerKw : ℚ) (rows : List SimResultsRec),
      (∀ r ∈ rows, r.scenario_name ≠ baselineLabel) →
      ∀ r' ∈ aggregate_baseline_relative baselineLabel tariffPerKw rows,
        r'.peak_shaving_achieved_mw = 0 ∧ r'.grid_cost_savings = 0) := by
  constructor
  · intro scen run_id vh ph c
    exact ⟨rfl, rfl⟩
  · intro baselineLabel tariffPerKw rows hno r' hr'
    have hfil : rows.filter (fun r => r.scenario_name = baselineLabel) = [] := by
      rw [List.filter_eq_nil_iff]
      intro r hr
      simpa using hno r hr
    rw [aggregate_baseline_relative, hfil] at hr'
    simp only [List.mem_map] at hr'
    obtain ⟨r, _, rfl⟩ := hr'
    exact ⟨rfl, rfl⟩

/-- C2 witness: a one-row batch whose only scenario is not
baseline-labeled comes out of the aggregation with both relative fields
equal to zero. -/
theorem baseline_relative_defaults_to_zero_witness :
    rowWzero.peak_shaving_achieved_mw = 0 ∧ rowWzero.grid_cost_savings = 0 :=
  baseline_relative_defaults_to_zero.2 "Baseline" (35/100) [rowW]
    (by
      intro r hr
      rw [List.mem_singleton] at hr
      subst hr
      simp [rowW])
    rowWzero (by simp [aggregate_baseline_relative, rowW, rowWzero])

/-- C6 counterexample: re-registering an existing id through
`initialize_ev` is not a no-op — with a generator whose uniform draw
returns its lower bound, the stored state of `"a"` changes from soc 1/2 to
the fresh draw 2/10. -/
theorem initialize_ev_overwrites_existing :
    (dictLookup "a" (initialize_ev constRng cObs 0 "a" true 0).1.ev_states).map EVState.soc
      = some (2/10) ∧
    (dictLookup "a" cObs.ev_states).map EVState.soc = some (1/2) ∧
    ((2:ℚ)/10) ≠ 1/2 := by
  refine ⟨?_, ?_, by norm_num⟩
  · simp [initialize_ev, constRng, cObs, evObs, dictInsert, dictLookup]
  · simp [cObs, evObs, dictLookup]

/-- C6 (amended): registration as the orchestrator performs it
(`if veh_id not in ev_states: initialize_ev(...)`, monte_carlo.py lines
199-202) is idempotent per id within a run: for an id already present it
neither changes the stored vehicle state nor consumes randomness, while a
bare `initialize_ev` call overwrites. -/
theorem register_if_absent_noop_on_existing
    (rng : Rng) (c : Controller) (s : Nat) (veh_id : String)
    (bdwpt_penetration : ℚ) (current_hour : ℤ) (ev : EVState)
    (hl : dictLookup veh_id c.ev_states = some ev) :
    register_if_absent rng c s veh_id bdwpt_penetration current_hour = (c, s) := by
  unfold register_if_absent
  rw [hl]

/-- C6 witness: the guarded registration leaves the concrete controller
`cObs` (which already holds `"a"`) and the generator state untouched. -/
theorem register_if_absent_noop_on_existing_witness :
    register_if_absent constRng cObs 0 "a" (1/2) 3 = (cObs, 0) :=
  register_if_absent_noop_on_existing constRng cObs 0 "a" (1/2) 3 evObs rfl

/-- C7 counterexample: a decision or integration request for an
unregistered id does not auto-register the vehicle — after both calls the
id is still absent from the registry. -/
theorem unknown_id_not_auto_registered :
    dictLookup "x" ((calculate_power_command constRng initController 0 "x" 1 12 0).2.1.ev_states) = none ∧
    dictLookup "x" ((update_ev_soc initController "x" 10 1).ev_states) = none :=
  ⟨rfl, rfl⟩

/-- C7 (amended): a decision or state-integration request for an id absent
from the registry is silently ignored: `calculate_power_command` returns 0
leaving the controller and generator untouched, and `update_ev_soc` leaves
the controller unchanged; no error is propagated and no registration is
performed. -/
theorem unknown_id_requests_ignored
    (rng : Rng) (c : Controller) (s : Nat) (vid : String) (lv : ℚ) (h : ℤ)
    (gd p t : ℚ) (hl : dictLookup vid c.ev_states = none) :
    calculate_power_command rng c s vid lv h gd = (0, c, s) ∧
    update_ev_soc c vid p t = c := by
  constructor
  · unfold calculate_power_command
    rw [hl]
  · unfold update_ev_soc
    rw [hl]

/-- C7 witness: both requests on the empty controller for id `"x"`. -/
theorem unknown_id_requests_ignored_witness :
    calculate_power_command constRng initController 0 "x" 1 12 0 = (0, initController, 0) ∧
    update_ev_soc initController "x" 10 1 = initController :=
  unknown_id_requests_ignored constRng initController 0 "x" 1 12 0 10 1 rfl

/-- C8: the source's chained comparison `22 <= hour <= 6` is unsatisfiable,
so the night hours (22-23 and 0-6) fall through to the ×0.8 default
multiplier: at hour 2 (and 23) with medium density and zero Poisson noise
the code returns 4 vehicles, while the intended ×0.2 night multiplier of
the spec (and of the source's own night-hours comment) gives 1. -/
theorem traffic_night_branch_dead :
    (simulate_traffic_pattern constRng 0 2 "medium").1 = 4 ∧
    (simulate_traffic_pattern constRng 0 23 "medium").1 = 4 ∧
    spec_traffic_count 0 2 "medium" = 1 ∧
    spec_traffic_count 0 23 "medium" = 1 ∧
    (4 : ℕ) ≠ 1 := by
  refine ⟨?_, ?_, ?_, ?_, by norm_num⟩ <;>
  · norm_num [simulate_traffic_pattern, spec_traffic_count,
      spec_time_of_day_multiplier, constRng]
    rw [if_neg (by decide : ¬("medium" : String) = "low")]
    try norm_num
    try rfl

/-- C9 counterexample: for a negative alignment error the dynamic
efficiency factor leaves (0, 1]: at speed 30, alignment error −30 cm, air
gap 15 cm the factor is 0.88·1·2·1 = 1.76 > 1. -/
theorem dynamic_efficiency_above_one :
    calculate_dynamic_efficiency 30 (-30) 15 = 44/25 ∧
    ¬(calculate_dynamic_efficiency 30 (-30) 15 ≤ 1) := by
  constructor <;> norm_num [calculate_dynamic_efficiency]

/-- C9 (amended): for every speed and air gap and every nonnegative
alignment error, the dynamic efficiency factor — base 0.88 times the speed,
alignment and gap factors — lies in (0, 1]. -/
theorem dynamic_efficiency_in_unit_interval
    (speed_kmh alignment_error_cm air_gap_cm : ℚ) (herr : 0 ≤ alignment_error_cm) :
    0 < calculate_dynamic_efficiency speed_kmh alignment_error_cm air_gap_cm ∧
    calculate_dynamic_efficiency speed_kmh alignment_error_cm air_gap_cm ≤ 1 := by
  unfold calculate_dynamic_efficiency
  have hsf : 92/100 ≤ (if speed_kmh < 20 then (95:ℚ)/100 else if speed_kmh > 60 then 92/100 else 1) ∧
      (if speed_kmh < 20 then (95:ℚ)/100 else if speed_kmh > 60 then 92/100 else 1) ≤ 1 := by
    split_ifs <;> norm_num
  have haf1 : 7/10 ≤ max (7/10) (1 - alignment_error_cm / 30) := le_max_left _ _
  have haf2 : max ((7:ℚ)/10) (1 - alignment_error_cm / 30) ≤ 1 := by
    apply max_le (by norm_num)
    have : 0 ≤ alignment_error_cm / 30 := by positivity
    linarith
  have hgf1 : 8/10 ≤ max (8/10) (1 - |air_gap_cm - 15| / 20) := le_max_left _ _
  have hgf2 : max ((8:ℚ)/10) (1 - |air_gap_cm - 15| / 20) ≤ 1 := by
    apply max_le (by norm_num)
    have : 0 ≤ |air_gap_cm - 15| / 20 := by positivity
    linarith
  constructor
  · have h1 : (0:ℚ) < 88/100 := by norm_num
    have h2 : (0:ℚ) < if speed_kmh < 20 then (95:ℚ)/100 else if speed_kmh > 60 then 92/100 else 1 :=
      lt_of_lt_of_le (by norm_num) hsf.1
    have h3 : (0:ℚ) < max (7/10) (1 - alignment_error_cm / 30) :=
      lt_of_lt_of_le (by norm_num) haf1
    have h4 : (0:ℚ) < max (8/10) (1 - |air_gap_cm - 15| / 20) :=
      lt_of_lt_of_le (by norm_num) hgf1
    exact mul_pos (mul_pos (mul_pos h1 h2) h3) h4
  · have h2 : (0:ℚ) ≤ if speed_kmh < 20 then (95:ℚ)/100 else if speed_kmh > 60 then 92/100 else 1 :=
      le_trans (by norm_num) hsf.1
    have h3 : (0:ℚ) ≤ max (7/10) (1 - alignment_error_cm / 30) :=
      le_trans (by norm_num) haf1
    have h4 : (0:ℚ) ≤ max (8/10) (1 - |air_gap_cm - 15| / 20) :=
      le_trans (by norm_num) hgf1
    have hb : (88:ℚ)/100 * (if speed_kmh < 20 then (95:ℚ)/100 else if speed_kmh > 60 then 92/100 else 1) ≤ 1 := by
      nlinarith [hsf.2]
    have hb2 : (88:ℚ)/100 * (if speed_kmh < 20 then (95:ℚ)/100 else if speed_kmh > 60 then 92/100 else 1)
        * max (7/10) (1 - alignment_error_cm / 30) ≤ 1 := by
      nlinarith [haf2, mul_nonneg (by norm_num : (0:ℚ) ≤ 88/100) h2]
    nlinarith [hgf2, mul_nonneg (mul_nonneg (by norm_num : (0:ℚ) ≤ 88/100) h2) h3]

/-- C9 witness: at speed 30, alignment error 0 and air gap 15 the factor
is positive and at most one. -/
theorem dynamic_efficiency_in_unit_interval_witness :
    0 < calculate_dynamic_efficiency 30 0 15 ∧ calculate_dynamic_efficiency 30 0 15 ≤ 1 :=
  dynamic_efficiency_in_unit_interval 30 0 15 le_rfl

/-- C3: the state integrator preserves the state-of-charge invariant: zero
power is a no-op, and for every vehicle state satisfying the data-model
invariants (soc in [0,1], positive capacity and efficiency), every signed
power command and every nonnegative duration, the updated soc stays in
[0,1] — the charging branch clamps to at most 1, the discharging branch to
at least 0. -/
theorem update_ev_soc_keeps_soc_in_unit_interval :
    (∀ (c : Controller) (vid : String) (t : ℚ), update_ev_soc c vid 0 t = c) ∧
    (∀ (c : Controller) (vid : String) (p t : ℚ) (ev : EVState),
      dictLookup vid c.ev_states = some ev →
      0 ≤ ev.soc → ev.soc ≤ 1 → 0 < ev.battery_capacity_kwh →
      0 < ev.charging_efficiency → 0 ≤ t →
      ∀ ev', dictLookup vid (update_ev_soc c vid p t).ev_states = some ev' →
        0 ≤ ev'.soc ∧ ev'.soc ≤ 1) := by
  constructor
  · intro c vid t
    unfold update_ev_soc
    cases h : dictLookup vid c.ev_states <;> simp
  · intro c vid p t ev hl h0 h1 hcap heff ht ev' hl'
    by_cases hp : p = 0
    · have hu : update_ev_soc c vid p t = c := by
        unfold update_ev_soc
        rw [hl]
        dsimp only
        rw [if_pos hp]
      rw [hu, hl] at hl'
      obtain rfl : ev = ev' := Option.some.inj hl'
      exact ⟨h0, h1⟩
    · by_cases hpp : p > 0
      · have hu : dictLookup vid (update_ev_soc c vid p t).ev_states =
            some { ev with soc := min 1 (ev.soc + p * t * ev.charging_efficiency / ev.battery_capacity_kwh) } := by
          unfold update_ev_soc
          rw [hl]
          dsimp only
          rw [if_neg hp, if_pos hpp]
          simp [setEv, dictLookup_insert_self]
        rw [hu] at hl'
        obtain rfl := Option.some.inj hl'
        have hd : 0 ≤ p * t * ev.charging_efficiency / ev.battery_capacity_kwh := by positivity
        constructor
        · exact le_min (by norm_num) (by linarith)
        · exact min_le_left _ _
      · have hu : dictLookup vid (update_ev_soc c vid p t).ev_states =
            some { ev with soc := max 0 (ev.soc - |p| * t / ev.charging_efficiency / ev.battery_capacity_kwh) } := by
          unfold update_ev_soc
          rw [hl]
          dsimp only
          rw [if_neg hp, if_neg hpp]
          simp [setEv, dictLookup_insert_self]
        rw [hu] at hl'
        obtain rfl := Option.some.inj hl'
        have hd : 0 ≤ |p| * t / ev.charging_efficiency / ev.battery_capacity_kwh := by positivity
        constructor
        · exact le_max_left _ _
        · exact max_le (by norm_num) (by linarith)

/-- C3 witness: charging the concrete vehicle `evObs` (soc 1/2) at 10 kW for
half an hour keeps the soc within [0,1]. -/
theorem update_ev_soc_keeps_soc_in_unit_interval_witness :
    0 ≤ ({ evObs with soc := min 1 (evObs.soc + 10 * (1/2) * evObs.charging_efficiency / evObs.battery_capacity_kwh) } : EVState).soc ∧
    ({ evObs with soc := min 1 (evObs.soc + 10 * (1/2) * evObs.charging_efficiency / evObs.battery_capacity_kwh) } : EVState).soc ≤ 1 :=
  update_ev_soc_keeps_soc_in_unit_interval.2 cObs "a" 10 (1/2) evObs rfl
    (by norm_num [evObs]) (by norm_num [evObs]) (by norm_num [evObs]) (by norm_num [evObs])
    (by norm_num)
    { evObs with soc := min 1 (evObs.soc + 10 * (1/2) * evObs.charging_efficiency / evObs.battery_capacity_kwh) }
    (by
      unfold update_ev_soc
      rw [show dictLookup "a" cObs.ev_states = some evObs from rfl]
      dsimp only
      rw [if_neg (by norm_num), if_pos (by norm_num)]
      simp [setEv, dictLookup_insert_self])

/-- C4: for every registered vehicle whose data-model bounds hold
(nonnegative max power and capacity), every input and every generator
behaviour, the absolute value of the dispatch command is at most the
vehicle's max power — in particular the emergency-charge
`min(0.8·maxPower, 30)` never exceeds it, so the claim's allowance for that
case is not even needed. -/
theorem calculate_power_command_abs_le_max_power
    (rng : Rng) (c : Controller) (s : Nat) (vid : String) (lv : ℚ) (h : ℤ)
    (gd : ℚ) (ev : EVState) (hl : dictLookup vid c.ev_states = some ev)
    (hm : 0 ≤ ev.max_power_kw) (hc : 0 ≤ ev.battery_capacity_kwh) :
    |(calculate_power_command rng c s vid lv h gd).1| ≤ ev.max_power_kw := by
  unfold calculate_power_command
  rw [hl]
  dsimp only
  by_cases h1 : ev.bdwpt_enabled = false ∨ ev.is_connected = false
  · rw [if_pos h1]
    simpa using hm
  · rw [if_neg h1]
    by_cases h2 : h < ev.arrival_time ∨ ev.departure_time ≤ h
    · rw [if_pos h2]
      simpa using hm
    · rw [if_neg h2]
      by_cases h3 : ev.soc ≤ ev.min_soc
      · rw [if_pos h3]
        have h0 : (0:ℚ) ≤ min (ev.max_power_kw * (8/10)) 30 :=
          le_min (by nlinarith) (by norm_num)
        dsimp only
        rw [abs_of_nonneg h0]
        exact le_trans (min_le_left _ _) (by nlinarith)
      · rw [if_neg h3]
        by_cases h4 : 95/100 ≤ ev.soc
        · rw [if_pos h4]
          simpa using hm
        · rw [if_neg h4]
          by_cases h5 : lv < voltage_threshold_low ∨ gd > peak_demand_threshold_mw
          · rw [if_pos h5]
            by_cases h6 : ev.soc > 6/10
            · rw [if_pos h6]
              by_cases h7 : (rng.random s).1 < ev.participation_willingness
              · rw [if_pos h7]
                have hsoc : ev.min_soc < ev.soc := not_le.mp h3
                have hx : (0:ℚ) ≤ (ev.soc - ev.min_soc) * ev.battery_capacity_kwh * 2 := by nlinarith
                have h0 : (0:ℚ) ≤ min (min (ev.max_power_kw * (6/10))
                    ((ev.soc - ev.min_soc) * ev.battery_capacity_kwh * 2)) 25 :=
                  le_min (le_min (by nlinarith) hx) (by norm_num)
                dsimp only
                rw [abs_neg, abs_of_nonneg h0]
                exact le_trans (le_trans (min_le_left _ _) (min_le_left _ _)) (by nlinarith)
              · rw [if_neg h7]
                exact cpc_econ_abs_le rng c ev vid h _ hm hc
            · rw [if_neg h6]
              exact cpc_econ_abs_le rng c ev vid h s hm hc
          · rw [if_neg h5]
            exact cpc_econ_abs_le rng c ev vid h s hm hc

/-- C4 witness: the command for the concrete registered vehicle `evObs` at
voltage 1, hour 12, zero demand is bounded by its 50 kW max power. -/
theorem calculate_power_command_abs_le_max_power_witness :
    |(calculate_power_command constRng cObs 0 "a" 1 12 0).1| ≤ evObs.max_power_kw :=
  calculate_power_command_abs_le_max_power constRng cObs 0 "a" 1 12 0 evObs rfl
    (by norm_num [evObs]) (by norm_num [evObs])

/-- C5: for every enrolled, connected, in-window vehicle with
`minSoc < soc < 0.95`, when the grid-support condition holds
(`localVoltage < 0.95` or `gridDemand` above the configured threshold),
`soc > 0.6`, and the uniform draw is below the vehicle's willingness, the
decision engine returns `−min(0.6·maxPower, (soc−minSoc)·capacity·2, 25)`
and accumulates the discharge magnitude into the peak-shaving counter. -/
theorem v2g_grid_support_discharge
    (rng : Rng) (c : Controller) (s : Nat) (vid : String) (lv : ℚ) (h : ℤ) (gd : ℚ)
    (ev : EVState) (hl : dictLookup vid c.ev_states = some ev)
    (henabled : ev.bdwpt_enabled = true) (hconn : ev.is_connected = true)
    (harr : ev.arrival_time ≤ h) (hdep : h < ev.departure_time)
    (hmin : ev.min_soc < ev.soc) (h95 : ev.soc < 95/100)
    (hsupport : lv < voltage_threshold_low ∨ gd > peak_demand_threshold_mw)
    (h06 : ev.soc > 6/10)
    (hdraw : (rng.random s).1 < ev.participation_willingness) :
    (calculate_power_command rng c s vid lv h gd).1 =
      -(min (ev.max_power_kw * (6/10))
        (min ((ev.soc - ev.min_soc) * ev.battery_capacity_kwh * 2) 25)) ∧
    (calculate_power_command rng c s vid lv h gd).2.1.peak_shaving_achieved_kw =
      c.peak_shaving_achieved_kw + |(calculate_power_command rng c s vid lv h gd).1| := by
  unfold calculate_power_command
  rw [hl]
  dsimp only
  rw [if_neg (by simp [henabled, hconn])]
  rw [if_neg (by omega)]
  rw [if_neg (not_le.mpr hmin)]
  rw [if_neg (not_le.mpr h95)]
  rw [if_pos hsupport]
  rw [if_pos h06]
  rw [if_pos hdraw]
  constructor
  · dsimp only
    rw [min_assoc]
  · simp [setEv]

/-- C5 witness: the concrete vehicle `evV` (soc 0.7, willingness 1, window
[0, 24)) at voltage 0.93, hour 12, zero demand, with the constant
generator's draw 1/2: the command is the negated triple min and the
peak-shaving counter grows by its magnitude. -/
theorem v2g_grid_support_discharge_witness :
    (calculate_power_command constRng cV 0 "v" (93/100) 12 0).1 =
      -(min (evV.max_power_kw * (6/10))
        (min ((evV.soc - evV.min_soc) * evV.battery_capacity_kwh * 2) 25)) ∧
    (calculate_power_command constRng cV 0 "v" (93/100) 12 0).2.1.peak_shaving_achieved_kw =
      cV.peak_shaving_achieved_kw + |(calculate_power_command constRng cV 0 "v" (93/100) 12 0).1| :=
  v2g_grid_support_discharge constRng cV 0 "v" (93/100) 12 0 evV rfl rfl rfl
    (by norm_num [cV, evV, evObs]) (by norm_num [cV, evV, evObs])
    (by norm_num [cV, evV, evObs]) (by norm_num [cV, evV, evObs])
    (Or.inl (by norm_num [voltage_threshold_low]))
    (by norm_num [cV, evV, evObs]) (by norm_num [constRng, cV, evV, evObs])

/-- C10: the frame effect of the decision engine on the stored command.
The four zero-return guard branches (unregistered id; not enrolled or not
connected; outside the [arrival, departure) window — which only flips the
connection flag) leave `charging_power_kw` at its previous value, while
every branch past the window check overwrites the stored command with the
returned value; and `get_aggregated_power` reads the stored (possibly
stale) `charging_power_kw`, as the concrete state `cObs` — whose vehicle
holds a 15 kW command left by an earlier decision — shows. -/
theorem stored_command_frame :
    (∀ (rng : Rng) (c : Controller) (s : Nat) (vid : String) (lv : ℚ) (h : ℤ) (gd : ℚ),
      dictLookup vid c.ev_states = none →
      calculate_power_command rng c s vid lv h gd = (0, c, s)) ∧
    (∀ (rng : Rng) (c : Controller) (s : Nat) (vid : String) (lv : ℚ) (h : ℤ) (gd : ℚ)
      (ev : EVState), dictLookup vid c.ev_states = some ev →
      (ev.bdwpt_enabled = false ∨ ev.is_connected = false) →
      calculate_power_command rng c s vid lv h gd = (0, c, s)) ∧
    (∀ (rng : Rng) (c : Controller) (s : Nat) (vid : String) (lv : ℚ) (h : ℤ) (gd : ℚ)
      (ev : EVState), dictLookup vid c.ev_states = some ev →
      ev.bdwpt_enabled = true → ev.is_connected = true →
      (h < ev.arrival_time ∨ ev.departure_time ≤ h) →
      calculate_power_command rng c s vid lv h gd =
        (0, setEv c vid { ev with is_connected := false }, s)) ∧
    (∀ (rng : Rng) (c : Controller) (s : Nat) (vid : String) (lv : ℚ) (h : ℤ) (gd : ℚ)
      (ev : EVState), dictLookup vid c.ev_states = some ev →
      ev.bdwpt_enabled = true → ev.is_connected = true →
      ev.arrival_time ≤ h → h < ev.departure_time →
      dictLookup vid (calculate_power_command rng c s vid lv h gd).2.1.ev_states =
        some { ev with charging_power_kw := (calculate_power_command rng c s vid lv h gd).1 }) ∧
    (get_aggregated_power cObs 5).total_g2v_kw = 15 := by
  refine ⟨?_, ?_, ?_, ?_, ?_⟩
  · intro rng c s vid lv h gd hl
    unfold calculate_power_command
    rw [hl]
  · intro rng c s vid lv h gd ev hl hcase
    unfold calculate_power_command
    rw [hl]
    dsimp only
    rw [if_pos hcase]
  · intro rng c s vid lv h gd ev hl henabled hconn hwin
    unfold calculate_power_command
    rw [hl]
    dsimp only
    rw [if_neg (by simp [henabled, hconn])]
    rw [if_pos hwin]
  · intro rng c s vid lv h gd ev hl henabled hconn harr hdep
    unfold calculate_power_command
    rw [hl]
    dsimp only
    rw [if_neg (by simp [henabled, hconn])]
    rw [if_neg (by omega)]
    by_cases h3 : ev.soc ≤ ev.min_soc
    · rw [if_pos h3]
      simp [setEv, dictLookup_insert_self]
    · rw [if_neg h3]
      by_cases h4 : 95/100 ≤ ev.soc
      · rw [if_pos h4]
        simp [setEv, dictLookup_insert_self]
      · rw [if_neg h4]
        by_cases h5 : lv < voltage_threshold_low ∨ gd > peak_demand_threshold_mw
        · rw [if_pos h5]
          by_cases h6 : ev.soc > 6/10
          · rw [if_pos h6]
            by_cases h7 : (rng.random s).1 < ev.participation_willingness
            · rw [if_pos h7]
              simp [setEv, dictLookup_insert_self]
            · rw [if_neg h7]
              exact cpc_econ_stores_command ..
          · rw [if_neg h6]
            exact cpc_econ_stores_command ..
        · rw [if_neg h5]
          exact cpc_econ_stores_command ..
  · norm_num [get_aggregated_power, cObs, evObs, initController]

/-- C10 witness: an out-of-window decision for the concrete vehicle `evObs`
(window [0, 10), queried at hour 12) returns 0, flips the connection flag
and leaves the stored 15 kW command in place. -/
theorem stored_command_frame_witness :
    calculate_power_command constRng cObs 0 "a" 1 12 0 =
      (0, setEv cObs "a" { evObs with is_connected := false }, 0) :=
  stored_command_frame.2.2.1 constRng cObs 0 "a" 1 12 0 evObs rfl rfl rfl
    (Or.inr (by norm_num [evObs]))
